import Mathlib

/-!
Shallow embedding of the walter-micropython modem driver mixins
(`src/walter_modem/mixins/coap.py`, `src/walter_modem/mixins/socket.py`).

The repository's core engine (`ModemCore`, the tokenizer, `_run_cmd`, the
shared structs/enums modules) is not under `src/`; where a claim depends on
it, the corresponding definition is modelled from the spec and carries a
doc comment starting `Modelled from the spec:`.  Everything else is a
direct translation of the Python source: machine integers are `Int`
(Python ints are unbounded), byte strings are `List Nat`, fallible Python
expressions (list/tuple indexing, `int()` parsing, attribute errors)
return `Option`/`Except`.
-/

/-- Python exceptions that the embedded code can raise. -/
inductive PyExc
  | indexError
  | attributeError
  | valueError
deriving Repr, DecidableEq

/-- Result codes of the driver (`WalterModemState` enum; the enum module is
not under `src/`, but only the distinctness of these constants matters, so
an inductive type is used). -/
inductive WalterModemState
  | OK
  | ERROR
  | NO_SUCH_PROFILE
  | NO_SUCH_SOCKET
  | NO_SUCH_PDP_CONTEXT
  | NO_FREE_SOCKET
  | TIMED_OUT
deriving Repr, DecidableEq

/-- Modelled from the spec: `ModemRsp` (in `walter_modem/structs.py`, not
under `src/`) is the caller-owned result holder; the engine writes the
overall result code into it (spec section 3, "Modem Response").  Only the
`result` field is examined by the claims. -/
structure ModemRsp where
  result : Option WalterModemState
deriving Repr, DecidableEq

/-- A fresh `ModemRsp()` with no result recorded yet. -/
def ModemRsp.init : ModemRsp := ⟨none⟩

/-- Embedding of `if rsp: rsp.result = s` — mutate the result holder when one was supplied. -/
def setRsp (rsp : Option ModemRsp) (s : WalterModemState) : Option ModemRsp :=
  rsp.map fun r => { r with result := some s }

/-- The `data` argument of the send functions: Python `bytes | bytearray | str | None`,
plus a constructor for a value of any other type (rejected by the source). -/
inductive PyData
  | str (s : String)
  | bytes (b : List Nat)
  | bytearray (b : List Nat)
  | pynone
  | other
deriving Repr, DecidableEq

/-- Embedding of `str.encode(utf-8)` as a list of byte values. -/
def pyEncodeUTF8 (s : String) : List Nat :=
  s.toUTF8.toList.map (fun b => b.toNat)

/-- The data-normalisation step shared by `coap_send` and `socket_send`:
`str` is UTF-8 encoded, `bytes`/`bytearray` pass through, `None` stays
absent, any other type is rejected (outer `none`). -/
def pyDataToBytes? (data : PyData) : Option (Option (List Nat)) :=
  match data with
  | .str s => some (some (pyEncodeUTF8 s))
  | .bytes b => some (some b)
  | .bytearray b => some (some b)
  | .pynone => some none
  | .other => none

/-- Resolve a Python sequence index (negative indices wrap from the end);
`none` means `IndexError`. -/
def pyIndex (len : Nat) (i : Int) : Option Nat :=
  let j : Int := if i < 0 then i + (len : Int) else i
  if 0 ≤ j ∧ j < (len : Int) then some j.toNat else none

/-- Python `seq[i]` on a list/tuple, with negative wrap-around. -/
def pyListGet? (l : List α) (i : Int) : Option α :=
  (pyIndex l.length i).bind fun j => l.get? j

/-- Python `seq[i].field = ...`: read the entry at (possibly negative) index
`i` and replace it by `f` applied to it; `none` means `IndexError`. -/
def pyListModify? (l : List α) (i : Int) (f : α → α) : Option (List α) :=
  (pyIndex l.length i).bind fun j => (l.get? j).map fun x => l.set j (f x)

/-- In-range variant used where the index is a `Nat` known to the engine. -/
def listModifyNat (l : List α) (j : Nat) (f : α → α) : List α :=
  match l.get? j with
  | some x => l.set j (f x)
  | none => l

/-- Test whether `sep` starts the byte string. -/
def isPre : List Nat → List Nat → Bool
  | [], _ => true
  | _ :: _, [] => false
  | a :: as, b :: bs => a == b && isPre as bs

/-- Index of the first occurrence of `sep` inside `hay`. -/
def findSub (hay sep : List Nat) : Option Nat :=
  (List.range (hay.length + 1)).find? (fun i => isPre sep (hay.drop i))

/-- Fuel-indexed worker for Python `bytes.split(sep, maxsplit)`. -/
def pySplitAux (sep : List Nat) : Nat → List Nat → Option Nat → List (List Nat)
  | _, hay, some 0 => [hay]
  | 0, hay, _ => [hay]
  | fuel + 1, hay, maxs =>
    match findSub hay sep with
    | none => [hay]
    | some i =>
      hay.take i :: pySplitAux sep fuel (hay.drop (i + sep.length)) (maxs.map (fun m => m - 1))

/-- Python `hay.split(sep)` / `hay.split(sep, maxsplit)` for a non-empty `sep`. -/
def pySplit (hay sep : List Nat) (maxs : Option Nat) : List (List Nat) :=
  pySplitAux sep (hay.length + 1) hay maxs

/-- Value of a non-empty run of ASCII digits. -/
def digitsVal? (ds : List Nat) : Option Nat :=
  if ds.isEmpty then none
  else ds.foldl
    (fun acc d => acc.bind fun n =>
      if 48 ≤ d ∧ d ≤ 57 then some (n * 10 + (d - 48)) else none)
    (some 0)

/-- Embedding of `int(b.decode())` on an optionally `-`-signed ASCII numeral; `none`
covers the `ValueError`/decode-failure crash path. -/
def pyParseInt? (b : List Nat) : Option Int :=
  match b with
  | 45 :: rest => (digitsVal? rest).map (fun n => -(n : Int))
  | _ => (digitsVal? b).map (fun n => (n : Int))

/- Enum constants from `socket.py` (the custom `Enum` base class assigns the
literal integer values shown in the source). -/

def WalterModemSocketState_FREE : Int := 0
def WalterModemSocketState_RESERVED : Int := 1
def WalterModemSocketState_CREATED : Int := 2
def WalterModemSocketState_OPENED : Int := 4
def WalterModemSocketProto_UDP : Int := 1
def WalterModemSocketAcceptAnyRemote_DISABLED : Int := 0
def WalterModemSocketAcceptAnyRemote_REMOTE_RX_AND_TX : Int := 2
def WalterModemRai_NO_INFO : Int := 0

/- Constants from `socket.py`. -/

def SOCKET_MIN_CTX_ID : Int := 1
def SOCKET_MAX_CTX_ID : Int := 6
def SOCKET_SEND_MIN_BYTES_LEN : Int := 1
def SOCKET_SEND_MAX_BYTES_LEN : Int := 16777216
def SOCKET_RECV_MIN_BYTES_LEN : Int := 1
def SOCKET_RECV_MAX_BYTES_LEN : Int := 1500

/-- Modelled from the spec: the `ModemCore.COAP_*` constants live in the core
module, which is not under `src/`.  Values follow the spec ("CoAP contexts
0–2"), the docstrings in `coap.py` (`ctx_id` 0–2, `timeout` 1–120) and the
tests (`length`/`max_bytes` bounds 0 and 1024, "Max is 1024 per
documentation"). -/
def COAP_MIN_CTX_ID : Int := 0
def COAP_MAX_CTX_ID : Int := 2
def COAP_MIN_TIMEOUT : Int := 1
def COAP_MAX_TIMEOUT : Int := 120
def COAP_MIN_BYTES_LENGTH : Int := 0
def COAP_MAX_BYTES_LENGTH : Int := 1024

/-- Structure `ModemSocketContextState` from `socket.py` (all fields defaulted in
`__init__`; `accept_any_remote` holds an enum integer). -/
structure ModemSocketRing where
  ctx_id : Int
  length : Option Int
  data : Option (List Nat)
deriving Repr, DecidableEq

structure ModemSocketContextState where
  connected : Bool
  configured : Bool
  rings : List ModemSocketRing
  accept_any_remote : Int
deriving Repr, DecidableEq

def ModemSocketContextState.init : ModemSocketContextState :=
  { connected := false
    configured := false
    rings := []
    accept_any_remote := WalterModemSocketAcceptAnyRemote_DISABLED }

/-- Structure `ModemSocket` from `socket.py` with its `__init__` defaults. -/
structure ModemSocket where
  state : Int
  id : Int
  pdp_context_id : Int
  mtu : Int
  exchange_timeout : Int
  conn_timeout : Int
  send_delay_ms : Int
  protocol : Int
  accept_any_remote : Int
  remote_host : String
  remote_port : Int
  local_port : Int
deriving Repr, DecidableEq

def ModemSocket.init (id : Int) : ModemSocket :=
  { state := WalterModemSocketState_FREE
    id := id
    pdp_context_id := 1
    mtu := 300
    exchange_timeout := 90
    conn_timeout := 60
    send_delay_ms := 5000
    protocol := WalterModemSocketProto_UDP
    accept_any_remote := WalterModemSocketAcceptAnyRemote_DISABLED
    remote_host := ""
    remote_port := 0
    local_port := 0 }

/-- Modelled from the spec: `ModemCoapContextState` lives in
`walter_modem/structs.py`, which is not under `src/`.  Spec section 3:
"`configured` is always observationally equal to `connected`"; the CoAP
mixin's completion handler writes only `connected` and the tests assert
`configured is connected`, so `configured` is represented as an alias of
`connected`. -/
structure ModemCoapContextState where
  connected : Bool
deriving Repr, DecidableEq

def ModemCoapContextState.configured (c : ModemCoapContextState) : Bool :=
  c.connected

def ModemCoapContextState.init : ModemCoapContextState := ⟨false⟩

/-- The mutable modem-instance state the claims examine: the two mirror
arrays from `SocketMixin.__init__`, the in-use socket reference
(represented as an index into `socket_list`, since the Python attribute
aliases a list element), the CoAP mirror array (three entries, contexts
0–2) and the tokenizer's `raw_chunk_size` (`_parser_data` lives in the
core, which is not under `src/`; the spec's Tokenizer State carries one
configurable raw-chunk size, which both mixins assign). -/
structure ModemState where
  socket_context_states : List ModemSocketContextState
  socket_list : List ModemSocket
  socket : Option Nat
  coap_context_states : List ModemCoapContextState
  raw_chunk_size : Int
deriving Repr, DecidableEq

/-- Embedding of `self._socket_list = [ModemSocket(idx + 1) for idx in range(_SOCKET_MAX_CTX_ID + 1)]` -/
def initSocketList : List ModemSocket :=
  (List.range (SOCKET_MAX_CTX_ID.toNat + 1)).map (fun idx => ModemSocket.init ((idx : Int) + 1))

/-- Embedding of `tuple(ModemSocketContextState() for _ in range(_SOCKET_MIN_CTX_ID, _SOCKET_MAX_CTX_ID + 1))` -/
def initSocketContextStates : List ModemSocketContextState :=
  List.replicate ((SOCKET_MAX_CTX_ID + 1 - SOCKET_MIN_CTX_ID).toNat) ModemSocketContextState.init

/-- Modelled from the spec: the CoAP mirror array is created by the core with
one entry per valid identifier (contexts 0–2). -/
def initCoapContextStates : List ModemCoapContextState :=
  List.replicate ((COAP_MAX_CTX_ID + 1 - COAP_MIN_CTX_ID).toNat) ModemCoapContextState.init

def ModemState.init : ModemState :=
  { socket_context_states := initSocketContextStates
    socket_list := initSocketList
    socket := none
    coap_context_states := initCoapContextStates
    raw_chunk_size := 0 }

/-- Structured record of an AT command handed to `_run_cmd` (only the
arguments some claim examines are carried; the exact string formatting of
the remaining arguments is not modelled). -/
inductive AtCommand
  | coapCreate (ctx_id : Int) (server_address : Option String)
      (server_port local_port : Option Int) (dtls : Bool) (timeout : Int)
      (secure_profile_id : Option Int)
  | coapClose (ctx_id : Int)
  | coapSend (ctx_id m_type method length : Int) (data : Option (List Nat))
  | coapRcv (ctx_id msg_id max_bytes : Int)
  | socketSendExt (ctx_id length rai : Int) (remote_addr : Option String)
      (remote_port : Option Int) (data : Option (List Nat))
  | sqnsrecv (ctx_id max_bytes : Int)
  | sqnsd (id protocol remote_port : Int) (remote_host : String)
      (local_port accept_any_remote : Int)
deriving Repr, DecidableEq

/-- Outcome of one driver call: the boolean return value, the modem state
after the call, the (possibly updated) caller-supplied result holder, and
the list of AT commands actually handed to `_run_cmd` (empty when
validation rejected the call before any transport interaction). -/
structure CallOutcome where
  ret : Bool
  st : ModemState
  rsp : Option ModemRsp
  cmds : List AtCommand
deriving Repr, DecidableEq

/-- Modelled from the spec: `ModemCore._run_cmd` is not under `src/`.
Spec sections 4.3 and 3: the command is written to the transport, reaches a
terminal state with some result code, the optional completion callback runs
with that result *before the caller is resumed*, and the Executor populates
the caller's result holder with the overall result code.  The eventual
terminal result is a parameter (`result`), since it is decided by the
modem; the returned boolean is success (`result == OK`). -/
def runAtCmd (st : ModemState) (cmd : AtCommand) (result : WalterModemState)
    (rsp : Option ModemRsp)
    (complete : WalterModemState → ModemState → ModemState) : CallOutcome :=
  let st2 := complete result st
  { ret := result == WalterModemState.OK
    st := st2
    rsp := setRsp rsp result
    cmds := [cmd] }

/-- A `_run_cmd` call with no completion handler. -/
def runAtCmdPlain (st : ModemState) (cmd : AtCommand) (result : WalterModemState)
    (rsp : Option ModemRsp) : CallOutcome :=
  runAtCmd st cmd result rsp (fun _ s => s)

/-- A synchronous validation rejection: `return False` with `rsp.result`
set when a holder was supplied, no state change, no transport interaction. -/
def rejected (st : ModemState) (rsp : Option ModemRsp) (s : WalterModemState) : CallOutcome :=
  { ret := false, st := st, rsp := setRsp rsp s, cmds := [] }

/-! ### CoAP mixin (`src/walter_modem/mixins/coap.py`) -/

/-- Embedding of `ModemCoap.coap_context_create` (lines 19–77).  Validation as in the
source; on the run path the completion handler sets
`coap_context_states[ctx_id].connected = True` exactly when the terminal
result is `OK` (`complete_handler`, lines 59–61). -/
def coap_context_create (st : ModemState) (ctx_id : Int)
    (server_address : Option String) (server_port local_port : Option Int)
    (timeout : Int) (dtls : Bool) (secure_profile_id : Option Int)
    (result : WalterModemState) (rsp : Option ModemRsp) : CallOutcome :=
  if ctx_id < COAP_MIN_CTX_ID ∨ COAP_MAX_CTX_ID < ctx_id then
    rejected st rsp WalterModemState.NO_SUCH_PROFILE
  else if timeout < COAP_MIN_TIMEOUT ∨ COAP_MAX_TIMEOUT < timeout then
    rejected st rsp WalterModemState.ERROR
  else
    runAtCmd st
      (AtCommand.coapCreate ctx_id server_address server_port local_port dtls
        timeout secure_profile_id)
      result rsp
      (fun r s =>
        if r == WalterModemState.OK then
          { s with coap_context_states :=
              (listModifyNat s.coap_context_states ctx_id.toNat
                (fun c => { c with connected := true })) }
        else s)

/-- Embedding of `ModemCoap.coap_context_close` (lines 79–100). -/
def coap_context_close (st : ModemState) (ctx_id : Int)
    (result : WalterModemState) (rsp : Option ModemRsp) : CallOutcome :=
  if ctx_id < COAP_MIN_CTX_ID ∨ COAP_MAX_CTX_ID < ctx_id then
    rejected st rsp WalterModemState.NO_SUCH_PROFILE
  else
    runAtCmdPlain st (AtCommand.coapClose ctx_id) result rsp

/-- Embedding of `length = 0 if data is None else len(data)` — the auto-computed length. -/
def dataLen (d : Option (List Nat)) : Int :=
  match d with
  | none => 0
  | some b => (b.length : Int)

/-- Embedding of `ModemCoap.coap_send` (lines 102–148); `(length.getD (dataLen d))` is
the source's `length` after the `if length is None` defaulting step. -/
def coap_send (st : ModemState) (ctx_id m_type method : Int) (data : PyData)
    (length : Option Int) (result : WalterModemState) (rsp : Option ModemRsp) :
    CallOutcome :=
  if ctx_id < COAP_MIN_CTX_ID ∨ COAP_MAX_CTX_ID < ctx_id then
    rejected st rsp WalterModemState.NO_SUCH_PROFILE
  else
    match pyDataToBytes? data with
    | none => rejected st rsp WalterModemState.ERROR
    | some d =>
      if length.getD (dataLen d) < COAP_MIN_BYTES_LENGTH
          ∨ COAP_MAX_BYTES_LENGTH < length.getD (dataLen d) then
        rejected st rsp WalterModemState.ERROR
      else
        runAtCmdPlain st
          (AtCommand.coapSend ctx_id m_type method (length.getD (dataLen d)) d) result rsp

/-- Embedding of `ModemCoap.coap_receive_data` (lines 150–187): after validation it sets
`self._parser_data.raw_chunk_size = min(length, max_bytes)` and only then
issues `AT+SQNCOAPRCV`. -/
def coap_receive_data (st : ModemState) (ctx_id msg_id length max_bytes : Int)
    (result : WalterModemState) (rsp : Option ModemRsp) : CallOutcome :=
  if ctx_id < COAP_MIN_CTX_ID ∨ COAP_MAX_CTX_ID < ctx_id then
    rejected st rsp WalterModemState.NO_SUCH_PROFILE
  else if max_bytes < COAP_MIN_BYTES_LENGTH ∨ COAP_MAX_BYTES_LENGTH < max_bytes then
    rejected st rsp WalterModemState.ERROR
  else if length < 0 then
    rejected st rsp WalterModemState.ERROR
  else
    let st2 := { st with raw_chunk_size := min length max_bytes }
    runAtCmdPlain st2 (AtCommand.coapRcv ctx_id msg_id max_bytes) result rsp

/-! ### Socket mixin (`src/walter_modem/mixins/socket.py`) -/

/-- Embedding of `SocketMixin.socket_send` (lines 149–190).  Note that
`self.socket_context_states[ctx_id]` is evaluated for every in-range
`ctx_id`; the tuple holds only
`_SOCKET_MAX_CTX_ID + 1 - _SOCKET_MIN_CTX_ID = 6` entries (indices 0–5),
so `ctx_id = 6` raises `IndexError`. -/
def socket_send (st : ModemState) (ctx_id : Int) (data : PyData)
    (length : Option Int) (rai : Int) (remote_addr : Option String)
    (remote_port : Option Int) (result : WalterModemState)
    (rsp : Option ModemRsp) : Except PyExc CallOutcome :=
  if ctx_id < SOCKET_MIN_CTX_ID ∨ SOCKET_MAX_CTX_ID < ctx_id then
    Except.ok (rejected st rsp WalterModemState.NO_SUCH_PROFILE)
  else
    match pyListGet? st.socket_context_states ctx_id with
    | none => Except.error PyExc.indexError
    | some entry =>
      if entry.accept_any_remote ≠ WalterModemSocketAcceptAnyRemote_REMOTE_RX_AND_TX
          ∧ (remote_addr.isSome ∨ remote_port.isSome) then
        Except.ok (rejected st rsp WalterModemState.ERROR)
      else
        match pyDataToBytes? data with
        | none => Except.ok (rejected st rsp WalterModemState.ERROR)
        | some d =>
          if length.getD (dataLen d) < SOCKET_SEND_MIN_BYTES_LEN
              ∨ SOCKET_SEND_MAX_BYTES_LEN < length.getD (dataLen d) then
            Except.ok (rejected st rsp WalterModemState.ERROR)
          else
            Except.ok (runAtCmdPlain st
              (AtCommand.socketSendExt ctx_id (length.getD (dataLen d)) rai
                remote_addr remote_port d)
              result rsp)

/-- Embedding of `SocketMixin.socket_receive_data` (lines 192–216): after validation it
sets the tokenizer's `raw_chunk_size` to `min(length, max_bytes)` and only
then issues `AT+SQNSRECV`.  (The source spells the attribute
`self.__parser_data`; the tokenizer state lives in the core, which is not
under `src/`, and the spec's Tokenizer State carries a single configurable
raw-chunk size, so the same state field is used as for the CoAP mixin.)
Wrapped in `Except` only so that the two socket data functions share the
type of `socket_send`; no path of this function raises. -/
def socket_receive_data (st : ModemState) (ctx_id length max_bytes : Int)
    (result : WalterModemState) (rsp : Option ModemRsp) :
    Except PyExc CallOutcome :=
  if ctx_id < SOCKET_MIN_CTX_ID ∨ SOCKET_MAX_CTX_ID < ctx_id then
    Except.ok (rejected st rsp WalterModemState.NO_SUCH_PROFILE)
  else if max_bytes < SOCKET_RECV_MIN_BYTES_LEN ∨ SOCKET_RECV_MAX_BYTES_LEN < max_bytes then
    Except.ok (rejected st rsp WalterModemState.ERROR)
  else if length < 0 then
    Except.ok (rejected st rsp WalterModemState.ERROR)
  else
    let st2 := { st with raw_chunk_size := min length max_bytes }
    Except.ok (runAtCmdPlain st2 (AtCommand.sqnsrecv ctx_id max_bytes) result rsp)

/-- The selected socket after `socket_connect`'s field assignments
(`socket.protocol = protocol`, ..., `socket.local_port = local_port`). -/
def sockAfterConnect (sock : ModemSocket)
    (protocol accept_any_remote : Int) (remote_host : String)
    (remote_port local_port : Int) : ModemSocket :=
  { sock with
      protocol := protocol
      accept_any_remote := accept_any_remote
      remote_host := remote_host
      remote_port := remote_port
      local_port := local_port }

/-- Embedding of `SocketMixin.socket_connect` (lines 269–307).  The `try` block covers
only the socket selection expression
`self._socket if socket_id == -1 else self._socket_list[socket_id - 1]`
(an `IndexError` there is answered with `NO_SUCH_SOCKET`); when
`socket_id == -1` and `self._socket` is `None`, the later field assignment
`socket.protocol = ...` raises `AttributeError` outside the `try`. -/
def socket_connect (st : ModemState) (remote_host : String)
    (remote_port local_port socket_id protocol accept_any_remote : Int)
    (result : WalterModemState) (rsp : Option ModemRsp) :
    Except PyExc CallOutcome :=
  match (if socket_id = -1 then some st.socket
         else (pyIndex st.socket_list.length (socket_id - 1)).map some) with
  | none => Except.ok (rejected st rsp WalterModemState.NO_SUCH_SOCKET)
  | some none => Except.error PyExc.attributeError
  | some (some j) =>
    match st.socket_list.get? j with
    | none => Except.error PyExc.indexError
    | some sock =>
      Except.ok (runAtCmd
        { st with
            socket_list := st.socket_list.set j
              (sockAfterConnect sock protocol accept_any_remote remote_host
                remote_port local_port)
            socket := some j }
        (AtCommand.sqnsd
          (sockAfterConnect sock protocol accept_any_remote remote_host
            remote_port local_port).id
          (sockAfterConnect sock protocol accept_any_remote remote_host
            remote_port local_port).protocol
          (sockAfterConnect sock protocol accept_any_remote remote_host
            remote_port local_port).remote_port
          (sockAfterConnect sock protocol accept_any_remote remote_host
            remote_port local_port).remote_host
          (sockAfterConnect sock protocol accept_any_remote remote_host
            remote_port local_port).local_port
          (sockAfterConnect sock protocol accept_any_remote remote_host
            remote_port local_port).accept_any_remote)
        result rsp
        (fun r s =>
          if r == WalterModemState.OK then
            { s with socket_list :=
                (listModifyNat s.socket_list j
                  (fun k => { k with state := WalterModemSocketState_OPENED })) }
          else s))

/-- Embedding of `SocketMixin._socket_mirror_state_reset` (lines 312–314): rebuilds
`_socket_list` with fresh default sockets (ids 1–7) and clears the in-use
socket reference; the context-state tuple is not touched. -/
def socket_mirror_state_reset (st : ModemState) : ModemState :=
  { st with socket_list := initSocketList, socket := none }

/-- Embedding of `SocketMixin._handle_socket_closed` (lines 319–323).  The source
computes `ctx_id = int(at_rsp.split(b':').decode())`; `bytes.split`
returns a *list* of byte strings, and a list object has no `decode`
attribute, so evaluating this expression raises `AttributeError` on every
input, before `socket_context_states[ctx_id].connected = False` is ever
reached. -/
def handle_socket_closed (_st : ModemState) (at_rsp : List Nat) :
    Except PyExc (ModemState × WalterModemState) :=
  let _pieces := pySplit at_rsp [58] none
  Except.error PyExc.attributeError

/-- The parsing steps of `_handle_socket_ring` on
`parts = at_rsp.split(b': ', 1)[1].split(b',')`: the ctx id from
`parts[0]`, the declared length from `parts[1]` when present, the inline
data from `parts[2]` when exactly three parts. -/
def ringRecord? (parts : List (List Nat)) :
    Except PyExc (Int × Option Int × Option (List Nat)) :=
  match parts.get? 0 with
  | none => Except.error PyExc.indexError
  | some p0 =>
    match pyParseInt? p0 with
    | none => Except.error PyExc.valueError
    | some ctx_id =>
      match (if parts.length ≥ 2 then
               match parts.get? 1 with
               | none => Except.error PyExc.indexError
               | some p1 =>
                 match pyParseInt? p1 with
                 | none => Except.error PyExc.valueError
                 | some n => Except.ok (some n)
             else Except.ok (none : Option Int)) with
      | Except.error e => Except.error e
      | Except.ok length =>
        Except.ok (ctx_id, length, if parts.length = 3 then parts.get? 2 else none)

/-- Embedding of `SocketMixin._handle_socket_ring` (lines 325–335). -/
def handle_socket_ring (st : ModemState) (at_rsp : List Nat) :
    Except PyExc (ModemState × WalterModemState) :=
  match (pySplit at_rsp [58, 32] (some 1)).get? 1 with
  | none => Except.error PyExc.indexError
  | some suffix =>
    match ringRecord? (pySplit suffix [44] none) with
    | Except.error e => Except.error e
    | Except.ok (ctx_id, length, data) =>
      match pyListModify? st.socket_context_states ctx_id
          (fun e => { e with rings := e.rings ++
            [{ ctx_id := ctx_id, length := length, data := data }] }) with
      | none => Except.error PyExc.indexError
      | some l => Except.ok ({ st with socket_context_states := l }, WalterModemState.OK)

/-! ### Tokenizer (modelled from the spec) -/

/-- Tokenizer states (spec section 3, "Tokenizer State"). -/
inductive TokState
  | AWAITING_LINE
  | AWAITING_PROMPT
  | READING_RAW_CHUNK
deriving Repr, DecidableEq

/-- Modelled from the spec: the Line/Frame Tokenizer lives in the core,
which is not under `src/`.  Spec section 4.1: in `READING_RAW_CHUNK` with a
configured raw chunk size it "emits exactly `min(declared_length,
configured_max)` bytes as one `RawChunk` token regardless of embedded
terminator-like bytes, then reverts to `AWAITING_LINE`" — the declared
size having been placed in `raw_chunk_size` by the receive command.
Returns the emitted chunk, the remaining stream and the next state. -/
def tokenizerReadRawChunk (stream : List Nat) (raw_chunk_size : Int) :
    List Nat × List Nat × TokState :=
  (stream.take raw_chunk_size.toNat, stream.drop raw_chunk_size.toNat,
    TokState.AWAITING_LINE)

/-! ### Theorems -/

/-- Claim C1. Every CoAP operation (`coap_context_create`, `coap_context_close`,
`coap_send`, `coap_receive_data`) called with a `ctx_id` outside the valid
range 0–2 fails synchronously: it returns `False`, sets `rsp.result` to
`NO_SUCH_PROFILE` when a result holder is supplied, leaves the modem state
untouched and hands nothing to `_run_cmd` (no transport interaction, no
queue slot). -/
theorem coap_ctx_id_range_validation (ctx_id : Int)
    (h : ctx_id < COAP_MIN_CTX_ID ∨ COAP_MAX_CTX_ID < ctx_id) :
    ∀ (st : ModemState) (rsp : Option ModemRsp) (result : WalterModemState)
      (server_address : Option String) (server_port local_port secure_profile_id : Option Int)
      (timeout : Int) (dtls : Bool) (m_type method msg_id length max_bytes : Int)
      (data : PyData) (lengthOpt : Option Int),
      coap_context_create st ctx_id server_address server_port local_port timeout dtls
          secure_profile_id result rsp = rejected st rsp WalterModemState.NO_SUCH_PROFILE
      ∧ coap_context_close st ctx_id result rsp
          = rejected st rsp WalterModemState.NO_SUCH_PROFILE
      ∧ coap_send st ctx_id m_type method data lengthOpt result rsp
          = rejected st rsp WalterModemState.NO_SUCH_PROFILE
      ∧ coap_receive_data st ctx_id msg_id length max_bytes result rsp
          = rejected st rsp WalterModemState.NO_SUCH_PROFILE
      ∧ (rejected st rsp WalterModemState.NO_SUCH_PROFILE).ret = false
      ∧ (rejected st rsp WalterModemState.NO_SUCH_PROFILE).st = st
      ∧ (rejected st rsp WalterModemState.NO_SUCH_PROFILE).cmds = []
      ∧ (∀ r, rsp = some r → (rejected st rsp WalterModemState.NO_SUCH_PROFILE).rsp
          = some { r with result := some WalterModemState.NO_SUCH_PROFILE }) := by
  intro st rsp result server_address server_port local_port secure_profile_id
    timeout dtls m_type method msg_id length max_bytes data lengthOpt
  refine ⟨?_, ?_, ?_, ?_, rfl, rfl, rfl, ?_⟩
  · simp only [coap_context_create, if_pos h]
  · simp only [coap_context_close, if_pos h]
  · simp only [coap_send, if_pos h]
  · simp only [coap_receive_data, if_pos h]
  · intro r hr
    subst hr
    rfl

/-- Witness for C1 at the spec's own example, CoAP context id 7. -/
theorem coap_ctx_id_range_validation_witness :
    ((7 : Int) < COAP_MIN_CTX_ID ∨ COAP_MAX_CTX_ID < (7 : Int))
    ∧ coap_context_create ModemState.init 7 none none none 20 false none
        WalterModemState.OK (some ModemRsp.init)
      = rejected ModemState.init (some ModemRsp.init) WalterModemState.NO_SUCH_PROFILE :=
  ⟨by decide,
    (coap_ctx_id_range_validation 7 (by decide) ModemState.init (some ModemRsp.init)
      WalterModemState.OK none none none none 20 false 0 1 0 0 0 PyData.pynone none).1⟩

/-- Claim C7. For an in-range `ctx_id`: `coap_context_create` with a timeout
outside 1–120, `coap_send` with an explicit length outside 0–1024, and
`coap_receive_data` with `max_bytes` outside 0–1024 or a negative length,
each return `False` synchronously, set `rsp.result` to `ERROR` when a
holder is supplied, and hand nothing to `_run_cmd`. -/
theorem coap_argument_range_validation (ctx_id : Int)
    (hctx : COAP_MIN_CTX_ID ≤ ctx_id ∧ ctx_id ≤ COAP_MAX_CTX_ID) :
    ∀ (st : ModemState) (rsp : Option ModemRsp) (result : WalterModemState)
      (server_address : Option String) (server_port local_port secure_profile_id : Option Int)
      (dtls : Bool) (m_type method msg_id : Int) (data : PyData),
      (∀ timeout : Int, timeout < COAP_MIN_TIMEOUT ∨ COAP_MAX_TIMEOUT < timeout →
        coap_context_create st ctx_id server_address server_port local_port timeout dtls
            secure_profile_id result rsp = rejected st rsp WalterModemState.ERROR)
      ∧ (∀ length : Int, length < COAP_MIN_BYTES_LENGTH ∨ COAP_MAX_BYTES_LENGTH < length →
        coap_send st ctx_id m_type method data (some length) result rsp
          = rejected st rsp WalterModemState.ERROR)
      ∧ (∀ length max_bytes : Int,
          (max_bytes < COAP_MIN_BYTES_LENGTH ∨ COAP_MAX_BYTES_LENGTH < max_bytes) ∨ length < 0 →
        coap_receive_data st ctx_id msg_id length max_bytes result rsp
          = rejected st rsp WalterModemState.ERROR)
      ∧ (rejected st rsp WalterModemState.ERROR).ret = false
      ∧ (rejected st rsp WalterModemState.ERROR).st = st
      ∧ (rejected st rsp WalterModemState.ERROR).cmds = []
      ∧ (∀ r, rsp = some r → (rejected st rsp WalterModemState.ERROR).rsp
          = some { r with result := some WalterModemState.ERROR }) := by
  intro st rsp result server_address server_port local_port secure_profile_id
    dtls m_type method msg_id data
  have hin : ¬ (ctx_id < COAP_MIN_CTX_ID ∨ COAP_MAX_CTX_ID < ctx_id) := by
    simp only [COAP_MIN_CTX_ID, COAP_MAX_CTX_ID] at hctx ⊢
    omega
  refine ⟨?_, ?_, ?_, rfl, rfl, rfl, ?_⟩
  · intro timeout ht
    simp only [coap_context_create, if_neg hin, if_pos ht]
  · intro length hl
    simp only [coap_send, if_neg hin]
    cases hd : pyDataToBytes? data with
    | none => rfl
    | some d => simp only [Option.getD_some, if_pos hl]
  · intro length max_bytes hlm
    simp only [coap_receive_data, if_neg hin]
    rcases hlm with hm | hl
    · simp only [if_pos hm]
    · by_cases hm : max_bytes < COAP_MIN_BYTES_LENGTH ∨ COAP_MAX_BYTES_LENGTH < max_bytes
      · simp only [if_pos hm]
      · simp only [if_neg hm, if_pos hl]
  · intro r hr
    subst hr
    rfl

/-- Witness for C7 at context id 0 with timeout 121, send length 2000 and
receive `max_bytes` 2048 (inputs used by the repository's own tests). -/
theorem coap_argument_range_validation_witness :
    (COAP_MIN_CTX_ID ≤ (0 : Int) ∧ (0 : Int) ≤ COAP_MAX_CTX_ID)
    ∧ ((121 : Int) < COAP_MIN_TIMEOUT ∨ COAP_MAX_TIMEOUT < (121 : Int))
    ∧ coap_context_create ModemState.init 0 none none none 121 false none
        WalterModemState.OK (some ModemRsp.init)
      = rejected ModemState.init (some ModemRsp.init) WalterModemState.ERROR
    ∧ coap_send ModemState.init 0 0 1 PyData.pynone (some 2000)
        WalterModemState.OK (some ModemRsp.init)
      = rejected ModemState.init (some ModemRsp.init) WalterModemState.ERROR
    ∧ coap_receive_data ModemState.init 0 1 10 2048
        WalterModemState.OK (some ModemRsp.init)
      = rejected ModemState.init (some ModemRsp.init) WalterModemState.ERROR := by
  have h := coap_argument_range_validation 0 (by decide) ModemState.init
    (some ModemRsp.init) WalterModemState.OK none none none none false 0 1 1 PyData.pynone
  exact ⟨by decide, by decide, h.1 121 (by decide), h.2.1 2000 (by decide),
    h.2.2.1 10 2048 (Or.inl (by decide))⟩

/-- Claim C9. `_socket_mirror_state_reset` is idempotent: applying it twice
yields exactly the state it yields once — the socket list rebuilt with
seven fresh default-initialised sockets (ids 1–7, state `FREE`, default
mtu/timeouts/ports) and the in-use socket reference cleared to `None`. -/
theorem socket_mirror_reset_idempotent (st : ModemState) :
    socket_mirror_state_reset (socket_mirror_state_reset st) = socket_mirror_state_reset st
    ∧ (socket_mirror_state_reset st).socket = none
    ∧ (socket_mirror_state_reset st).socket_list = initSocketList
    ∧ (socket_mirror_state_reset st).socket_list.map (fun sock => sock.id)
        = [1, 2, 3, 4, 5, 6, 7]
    ∧ ∀ sock ∈ (socket_mirror_state_reset st).socket_list,
        sock.state = WalterModemSocketState_FREE ∧ sock.mtu = 300
        ∧ sock.exchange_timeout = 90 ∧ sock.conn_timeout = 60
        ∧ sock.send_delay_ms = 5000 ∧ sock.protocol = WalterModemSocketProto_UDP
        ∧ sock.remote_host = "" ∧ sock.remote_port = 0 ∧ sock.local_port = 0 := by
  refine ⟨rfl, rfl, rfl, ?_, ?_⟩
  · show initSocketList.map (fun sock => sock.id) = [1, 2, 3, 4, 5, 6, 7]
    decide
  · show ∀ sock ∈ initSocketList, _
    decide

/-- Claim C3 (code bug).  The claim says `socket_send` never raises across the
engine boundary for any `ctx_id` in the valid socket range 1–6.  The code
violates it at `ctx_id = 6`: `SocketMixin.__init__` builds
`socket_context_states` as a tuple of only six entries (indices 0–5,
`range(_SOCKET_MIN_CTX_ID, _SOCKET_MAX_CTX_ID + 1)`), and `socket_send`
evaluates `self.socket_context_states[ctx_id]` for every in-range id, so
`ctx_id = 6` raises `IndexError` before any validation result can be
returned.  (`socket_receive_data`, which never touches the tuple, indeed
returns a boolean for all of 1–6, as shown by the second conjunct.) -/
theorem socket_send_ctx6_index_error :
    socket_send ModemState.init 6 PyData.pynone none WalterModemRai_NO_INFO none none
        WalterModemState.OK (some ModemRsp.init) = Except.error PyExc.indexError
    ∧ (SOCKET_MIN_CTX_ID ≤ (6 : Int) ∧ (6 : Int) ≤ SOCKET_MAX_CTX_ID)
    ∧ ModemState.init.socket_context_states.length = 6
    ∧ socket_receive_data ModemState.init 6 10 512 WalterModemState.OK (some ModemRsp.init)
      = Except.ok (runAtCmdPlain { ModemState.init with raw_chunk_size := 10 }
          (AtCommand.sqnsrecv 6 512) WalterModemState.OK (some ModemRsp.init)) := by
  refine ⟨rfl, by decide, by decide, rfl⟩

/-- Claim C4 (code bug).  The claim says the `+SQNSH: ` handler parses the
socket id and clears that entry's `connected` flag, and the `+SQNSRING: `
handler appends a ring record.  `_handle_socket_closed` computes
`int(at_rsp.split(b':').decode())`; `bytes.split` returns a *list*, which
has no `decode` attribute, so the handler raises `AttributeError` on every
`+SQNSH: ` line (first conjunct, on `b'+SQNSH: 1'`) and never touches the
mirror.  `_handle_socket_ring` does append the ring record — second
conjunct, on `b'+SQNSRING: 1,10'` — but indexes the six-entry
`socket_context_states` tuple with the raw ctx id, so a ring for the valid
socket id 6 (`b'+SQNSRING: 6,10'`) raises `IndexError` (third conjunct). -/
theorem socket_urc_handlers_divergence :
    handle_socket_closed ModemState.init [43, 83, 81, 78, 83, 72, 58, 32, 49]
      = Except.error PyExc.attributeError
    ∧ handle_socket_ring ModemState.init
        [43, 83, 81, 78, 83, 82, 73, 78, 71, 58, 32, 49, 44, 49, 48]
      = Except.ok
          ({ ModemState.init with socket_context_states :=
              (initSocketContextStates.set 1
                { ModemSocketContextState.init with
                    rings := [{ ctx_id := 1, length := some 10, data := none }] }) },
            WalterModemState.OK)
    ∧ handle_socket_ring ModemState.init
        [43, 83, 81, 78, 83, 82, 73, 78, 71, 58, 32, 54, 44, 49, 48]
      = Except.error PyExc.indexError := by
  refine ⟨rfl, rfl, rfl⟩

/-- Claim C8 (counterexample).  The claim says that for `socket_send` with
`length` omitted and `data = None` "the length transmitted in the AT
command equals 0".  In the code the auto-computed length 0 is below
`_SOCKET_SEND_MIN_BYTES_LEN = 1`, so the call is rejected with `ERROR`
and *no* AT command is transmitted at all. -/
theorem socket_send_none_data_counterexample :
    socket_send ModemState.init 1 PyData.pynone none WalterModemRai_NO_INFO none none
        WalterModemState.OK (some ModemRsp.init)
      = Except.ok (rejected ModemState.init (some ModemRsp.init) WalterModemState.ERROR)
    ∧ (rejected ModemState.init (some ModemRsp.init) WalterModemState.ERROR).cmds = []
    ∧ (rejected ModemState.init (some ModemRsp.init) WalterModemState.ERROR).ret = false
    ∧ (rejected ModemState.init (some ModemRsp.init) WalterModemState.ERROR).rsp
      = some { result := some WalterModemState.ERROR } := by
  refine ⟨rfl, rfl, rfl, rfl⟩

/-- Claim C10 (counterexample).  The claim says every negative `socket_id`
other than the `-1` sentinel is accepted by `socket_connect`.  For
`socket_id = -7` the selection expression `self._socket_list[-8]` raises
`IndexError` (the list has seven entries, so only indices `-7…6` are
valid), the `except` branch answers `NO_SUCH_SOCKET`, and the call is
rejected — not accepted. -/
theorem socket_connect_neg7_counterexample :
    socket_connect ModemState.init "test.local" 80 0 (-7) WalterModemSocketProto_UDP
        WalterModemSocketAcceptAnyRemote_DISABLED WalterModemState.OK (some ModemRsp.init)
      = Except.ok (rejected ModemState.init (some ModemRsp.init) WalterModemState.NO_SUCH_SOCKET)
    ∧ ((-7 : Int) < 0 ∧ (-7 : Int) ≠ -1)
    ∧ (rejected ModemState.init (some ModemRsp.init) WalterModemState.NO_SUCH_SOCKET).ret
      = false := by
  refine ⟨rfl, by decide, rfl⟩

/-- Reading back the modified entry of `listModifyNat`. -/
theorem listModifyNat_get?_self (l : List α) (j : Nat) (f : α → α) :
    (listModifyNat l j f).get? j = (l.get? j).map f := by
  cases hg : l.get? j with
  | none =>
    unfold listModifyNat
    rw [hg]
    exact hg
  | some x =>
    have hj : j < l.length := by
      by_contra hge
      rw [List.get?_eq_none.mpr (Nat.le_of_not_lt hge)] at hg
      cases hg
    unfold listModifyNat
    rw [hg]
    simp [List.get?_eq_getElem?, List.getElem?_set_self, hj]

/-- The function `listModifyNat` leaves every other entry unchanged. -/
theorem listModifyNat_get?_ne (l : List α) (i j : Nat) (f : α → α) (h : i ≠ j) :
    (listModifyNat l i f).get? j = l.get? j := by
  unfold listModifyNat
  cases hg : l.get? i with
  | none => rfl
  | some x =>
    simp [List.get?_eq_getElem?, List.getElem?_set_ne h]

/-- Claim C2. For every in-range receive call, the tokenizer's raw chunk size
is set to exactly `min(length, max_bytes)` and the receive command is then
issued; the (spec-modelled) tokenizer in `READING_RAW_CHUNK` with that size
delivers exactly that many bytes as one chunk — whatever the bytes are,
including embedded `\r`/`\n` — and reverts to `AWAITING_LINE`. -/
theorem receive_raw_chunk_framing
    (st : ModemState) (result : WalterModemState) (rsp : Option ModemRsp)
    (ctx_id msg_id length max_bytes : Int)
    (hctx : COAP_MIN_CTX_ID ≤ ctx_id ∧ ctx_id ≤ COAP_MAX_CTX_ID)
    (hmax : COAP_MIN_BYTES_LENGTH ≤ max_bytes ∧ max_bytes ≤ COAP_MAX_BYTES_LENGTH)
    (hlen : 0 ≤ length)
    (sctx slength smax : Int)
    (hsctx : SOCKET_MIN_CTX_ID ≤ sctx ∧ sctx ≤ SOCKET_MAX_CTX_ID)
    (hsmax : SOCKET_RECV_MIN_BYTES_LEN ≤ smax ∧ smax ≤ SOCKET_RECV_MAX_BYTES_LEN)
    (hslen : 0 ≤ slength) :
    ((coap_receive_data st ctx_id msg_id length max_bytes result rsp).st.raw_chunk_size
        = min length max_bytes
      ∧ (coap_receive_data st ctx_id msg_id length max_bytes result rsp).cmds
        = [AtCommand.coapRcv ctx_id msg_id max_bytes])
    ∧ (∃ o, socket_receive_data st sctx slength smax result rsp = Except.ok o
        ∧ o.st.raw_chunk_size = min slength smax
        ∧ o.cmds = [AtCommand.sqnsrecv sctx smax])
    ∧ (∀ n : Int, 0 ≤ n → ∀ payload rest : List Nat, (payload.length : Int) = n →
        (tokenizerReadRawChunk (payload ++ rest) n).1 = payload
        ∧ (tokenizerReadRawChunk (payload ++ rest) n).2.2 = TokState.AWAITING_LINE) := by
  have hc1 : ¬ (ctx_id < COAP_MIN_CTX_ID ∨ COAP_MAX_CTX_ID < ctx_id) := by
    simp only [COAP_MIN_CTX_ID, COAP_MAX_CTX_ID] at hctx ⊢
    omega
  have hc2 : ¬ (max_bytes < COAP_MIN_BYTES_LENGTH ∨ COAP_MAX_BYTES_LENGTH < max_bytes) := by
    simp only [COAP_MIN_BYTES_LENGTH, COAP_MAX_BYTES_LENGTH] at hmax ⊢
    omega
  have hc3 : ¬ (length < 0) := by omega
  have hs1 : ¬ (sctx < SOCKET_MIN_CTX_ID ∨ SOCKET_MAX_CTX_ID < sctx) := by
    simp only [SOCKET_MIN_CTX_ID, SOCKET_MAX_CTX_ID] at hsctx ⊢
    omega
  have hs2 : ¬ (smax < SOCKET_RECV_MIN_BYTES_LEN ∨ SOCKET_RECV_MAX_BYTES_LEN < smax) := by
    simp only [SOCKET_RECV_MIN_BYTES_LEN, SOCKET_RECV_MAX_BYTES_LEN] at hsmax ⊢
    omega
  have hs3 : ¬ (slength < 0) := by omega
  refine ⟨?_, ?_, ?_⟩
  · simp only [coap_receive_data, if_neg hc1, if_neg hc2, if_neg hc3]
    exact ⟨rfl, rfl⟩
  · refine ⟨runAtCmdPlain { st with raw_chunk_size := min slength smax }
      (AtCommand.sqnsrecv sctx smax) result rsp, ?_, rfl, rfl⟩
    simp only [socket_receive_data, if_neg hs1, if_neg hs2, if_neg hs3]
  · intro n hn payload rest hplen
    have htn : n.toNat = payload.length := by omega
    refine ⟨?_, rfl⟩
    show (payload ++ rest).take n.toNat = payload
    rw [htn]
    exact List.take_left payload rest

/-- Witness for C2: declared length 10, configured max 512 (CoAP context 0)
and 300 (socket 1); a 10-byte payload full of embedded `\r`/`\n` bytes is
delivered unsplit. -/
theorem receive_raw_chunk_framing_witness :
    (coap_receive_data ModemState.init 0 1 10 512 WalterModemState.OK none).st.raw_chunk_size
      = min 10 512
    ∧ (∃ o, socket_receive_data ModemState.init 1 10 300 WalterModemState.OK none
        = Except.ok o ∧ o.st.raw_chunk_size = min 10 300
        ∧ o.cmds = [AtCommand.sqnsrecv 1 300])
    ∧ (tokenizerReadRawChunk
        ([13, 10, 0, 65, 66, 13, 10, 67, 68, 68] ++ [79, 75, 13, 10]) 10).1
      = [13, 10, 0, 65, 66, 13, 10, 67, 68, 68] := by
  have h := receive_raw_chunk_framing ModemState.init WalterModemState.OK none
    0 1 10 512 ⟨by decide, by decide⟩ ⟨by decide, by decide⟩ (by decide)
    1 10 300 ⟨by decide, by decide⟩ ⟨by decide, by decide⟩ (by decide)
  exact ⟨h.1.1, h.2.1,
    (h.2.2 10 (by decide) [13, 10, 0, 65, 66, 13, 10, 67, 68, 68] [79, 75, 13, 10]
      (by decide)).1⟩

/-- Claim C6. For `coap_context_create` on an in-range context `i` with a
valid timeout: when the command resolves `OK`, the completion handler has
set `coap_context_states[i].connected` to `True` in the very state the
caller observes together with the result; when the result is not `OK`, the
state is unchanged; and in all cases every entry `j ≠ i` is untouched. -/
theorem coap_create_complete_handler_frame
    (st : ModemState) (ctx_id timeout : Int)
    (hctx : COAP_MIN_CTX_ID ≤ ctx_id ∧ ctx_id ≤ COAP_MAX_CTX_ID)
    (ht : COAP_MIN_TIMEOUT ≤ timeout ∧ timeout ≤ COAP_MAX_TIMEOUT)
    (hidx : ctx_id.toNat < st.coap_context_states.length)
    (server_address : Option String) (server_port local_port secure_profile_id : Option Int)
    (dtls : Bool) (result : WalterModemState) (rsp : Option ModemRsp) :
    (result = WalterModemState.OK →
      ((coap_context_create st ctx_id server_address server_port local_port timeout dtls
          secure_profile_id result rsp).st.coap_context_states.get? ctx_id.toNat).map
            (fun c => c.connected) = some true)
    ∧ (result ≠ WalterModemState.OK →
      (coap_context_create st ctx_id server_address server_port local_port timeout dtls
          secure_profile_id result rsp).st = st)
    ∧ (∀ j : Nat, j ≠ ctx_id.toNat →
      (coap_context_create st ctx_id server_address server_port local_port timeout dtls
          secure_profile_id result rsp).st.coap_context_states.get? j
        = st.coap_context_states.get? j)
    ∧ (coap_context_create st ctx_id server_address server_port local_port timeout dtls
        secure_profile_id result rsp).ret = (result == WalterModemState.OK)
    ∧ (coap_context_create st ctx_id server_address server_port local_port timeout dtls
        secure_profile_id result rsp).rsp = setRsp rsp result := by
  have hc1 : ¬ (ctx_id < COAP_MIN_CTX_ID ∨ COAP_MAX_CTX_ID < ctx_id) := by
    simp only [COAP_MIN_CTX_ID, COAP_MAX_CTX_ID] at hctx ⊢
    omega
  have hc2 : ¬ (timeout < COAP_MIN_TIMEOUT ∨ COAP_MAX_TIMEOUT < timeout) := by
    simp only [COAP_MIN_TIMEOUT, COAP_MAX_TIMEOUT] at ht ⊢
    omega
  simp only [coap_context_create, if_neg hc1, if_neg hc2]
  refine ⟨?_, ?_, ?_, rfl, rfl⟩
  · intro hres
    subst hres
    show ((listModifyNat st.coap_context_states ctx_id.toNat
        (fun c => { c with connected := true })).get? ctx_id.toNat).map
          (fun c => c.connected) = some true
    rw [listModifyNat_get?_self]
    cases hg : st.coap_context_states.get? ctx_id.toNat with
    | none =>
      exact absurd (List.get?_eq_none.mp hg) (Nat.not_le_of_lt hidx)
    | some c => rfl
  · intro hres
    have hb : (result == WalterModemState.OK) = false := by
      simp [beq_iff_eq, hres]
    simp only [runAtCmd, hb, Bool.false_eq_true, if_false]
  · intro j hj
    by_cases hres : result = WalterModemState.OK
    · subst hres
      show (listModifyNat st.coap_context_states ctx_id.toNat
          (fun c => { c with connected := true })).get? j
        = st.coap_context_states.get? j
      exact listModifyNat_get?_ne _ _ _ _ (fun h => hj h.symm)
    · have hb : (result == WalterModemState.OK) = false := by
        simp [beq_iff_eq, hres]
      simp only [runAtCmd, hb, Bool.false_eq_true, if_false]

/-- Witness for C6 at context 1 on the fresh mirror with result `OK`:
entry 1 reads back connected, entries 0 and 2 are untouched. -/
theorem coap_create_complete_handler_frame_witness :
    ((coap_context_create ModemState.init 1 none none none 20 false none
        WalterModemState.OK none).st.coap_context_states.get? 1).map
          (fun c => c.connected) = some true
    ∧ (coap_context_create ModemState.init 1 none none none 20 false none
        WalterModemState.OK none).st.coap_context_states.get? 0
      = ModemState.init.coap_context_states.get? 0
    ∧ (coap_context_create ModemState.init 1 none none none 20 false none
        WalterModemState.OK none).st.coap_context_states.get? 2
      = ModemState.init.coap_context_states.get? 2 := by
  have h := coap_create_complete_handler_frame ModemState.init 1 20
    ⟨by decide, by decide⟩ ⟨by decide, by decide⟩ (by decide)
    none none none none false WalterModemState.OK none
  exact ⟨h.1 rfl, h.2.2.1 0 (by decide), h.2.2.1 2 (by decide)⟩

/-! ### Mirror-state operations and the configured/connected invariant (C5) -/

/-- If `pyListModify?` succeeds and the update preserves a per-entry
predicate, the predicate holds of every entry of the result. -/
theorem pyListModify?_forall {α : Type} {l l' : List α} {i : Int} {f : α → α}
    {p : α → Prop} (h : pyListModify? l i f = some l')
    (hl : ∀ e ∈ l, p e) (hf : ∀ x, p x → p (f x)) : ∀ e ∈ l', p e := by
  unfold pyListModify? at h
  cases hj : pyIndex l.length i with
  | none => rw [hj] at h; cases h
  | some j =>
    rw [hj] at h
    replace h : (l.get? j).map (fun x => l.set j (f x)) = some l' := h
    cases hg : l.get? j with
    | none => rw [hg] at h; cases h
    | some x =>
      rw [hg] at h
      injection h with h'
      subst h'
      intro e he
      rcases List.mem_or_eq_of_mem_set he with h1 | h2
      · exact hl e h1
      · subst h2
        exact hf x (hl x (List.get?_mem hg))

/-- Every visible operation that can touch mirror state. -/
inductive MirrorOp
  | socketClosed (at_rsp : List Nat)
  | socketRing (at_rsp : List Nat)
  | coapCreateOp (ctx_id timeout : Int) (server_address : Option String)
      (server_port local_port secure_profile_id : Option Int) (dtls : Bool)
      (result : WalterModemState) (rsp : Option ModemRsp)
  | coapCloseOp (ctx_id : Int) (result : WalterModemState) (rsp : Option ModemRsp)
  | coapSendOp (ctx_id m_type method : Int) (data : PyData) (length : Option Int)
      (result : WalterModemState) (rsp : Option ModemRsp)
  | coapReceiveOp (ctx_id msg_id length max_bytes : Int)
      (result : WalterModemState) (rsp : Option ModemRsp)
  | socketSendOp (ctx_id : Int) (data : PyData) (length : Option Int) (rai : Int)
      (remote_addr : Option String) (remote_port : Option Int)
      (result : WalterModemState) (rsp : Option ModemRsp)
  | socketReceiveOp (ctx_id length max_bytes : Int)
      (result : WalterModemState) (rsp : Option ModemRsp)
  | socketConnectOp (remote_host : String)
      (remote_port local_port socket_id protocol accept_any_remote : Int)
      (result : WalterModemState) (rsp : Option ModemRsp)
  | socketMirrorReset

/-- The state after one operation.  For the fallible operations an
exception propagates before any mutation, so the state is unchanged on the
`error` branch. -/
def applyMirrorOp (st : ModemState) : MirrorOp → ModemState
  | .socketClosed r =>
    match handle_socket_closed st r with
    | .ok (s, _) => s
    | .error _ => st
  | .socketRing r =>
    match handle_socket_ring st r with
    | .ok (s, _) => s
    | .error _ => st
  | .coapCreateOp c t sa sp lp spi d res rsp =>
    (coap_context_create st c sa sp lp t d spi res rsp).st
  | .coapCloseOp c res rsp => (coap_context_close st c res rsp).st
  | .coapSendOp c m meth data len res rsp => (coap_send st c m meth data len res rsp).st
  | .coapReceiveOp c msg len mx res rsp => (coap_receive_data st c msg len mx res rsp).st
  | .socketSendOp c data len rai ra rp res rsp =>
    match socket_send st c data len rai ra rp res rsp with
    | .ok o => o.st
    | .error _ => st
  | .socketReceiveOp c len mx res rsp =>
    match socket_receive_data st c len mx res rsp with
    | .ok o => o.st
    | .error _ => st
  | .socketConnectOp rh rp lp sid proto aar res rsp =>
    match socket_connect st rh rp lp sid proto aar res rsp with
    | .ok o => o.st
    | .error _ => st
  | .socketMirrorReset => socket_mirror_state_reset st

/-- The C5 invariant: in every mirror entry, `configured` is observationally
equal to `connected`. -/
def mirrorInv (st : ModemState) : Prop :=
  (∀ e ∈ st.socket_context_states, e.configured = e.connected)
  ∧ (∀ c ∈ st.coap_context_states, c.configured = c.connected)

/-- The function `coap_context_create` never touches the socket mirror entries. -/
theorem coap_create_socket_states (st : ModemState) (ctx_id timeout : Int)
    (server_address : Option String) (server_port local_port secure_profile_id : Option Int)
    (dtls : Bool) (result : WalterModemState) (rsp : Option ModemRsp) :
    (coap_context_create st ctx_id server_address server_port local_port timeout dtls
        secure_profile_id result rsp).st.socket_context_states
      = st.socket_context_states := by
  unfold coap_context_create
  split
  · rfl
  · split
    · rfl
    · simp only [runAtCmd]
      split
      · rfl
      · rfl

/-- The function `coap_context_close` never touches the socket mirror entries. -/
theorem coap_close_socket_states (st : ModemState) (ctx_id : Int)
    (result : WalterModemState) (rsp : Option ModemRsp) :
    (coap_context_close st ctx_id result rsp).st.socket_context_states
      = st.socket_context_states := by
  unfold coap_context_close
  split
  · rfl
  · rfl

/-- The function `coap_send` never touches the socket mirror entries. -/
theorem coap_send_socket_states (st : ModemState) (ctx_id m_type method : Int)
    (data : PyData) (length : Option Int) (result : WalterModemState)
    (rsp : Option ModemRsp) :
    (coap_send st ctx_id m_type method data length result rsp).st.socket_context_states
      = st.socket_context_states := by
  unfold coap_send
  split
  · rfl
  · split
    · rfl
    · split
      · rfl
      · rfl

/-- The function `coap_receive_data` never touches the socket mirror entries. -/
theorem coap_receive_socket_states (st : ModemState) (ctx_id msg_id length max_bytes : Int)
    (result : WalterModemState) (rsp : Option ModemRsp) :
    (coap_receive_data st ctx_id msg_id length max_bytes result rsp).st.socket_context_states
      = st.socket_context_states := by
  unfold coap_receive_data
  split
  · rfl
  · split
    · rfl
    · split
      · rfl
      · rfl

/-- When `socket_send` returns, the modem state is unchanged (only the
caller-visible outcome and the transport carry information). -/
theorem socket_send_st_eq (st : ModemState) (ctx_id : Int) (data : PyData)
    (length : Option Int) (rai : Int) (remote_addr : Option String)
    (remote_port : Option Int) (result : WalterModemState) (rsp : Option ModemRsp) :
    ∀ o, socket_send st ctx_id data length rai remote_addr remote_port result rsp
        = Except.ok o → o.st = st := by
  intro o h
  unfold socket_send at h
  repeat' split at h
  all_goals first
    | (injection h with h'; subst h'; rfl)
    | cases h

/-- When `socket_receive_data` returns, only `raw_chunk_size` can have
changed; the socket mirror entries are unchanged. -/
theorem socket_receive_socket_states (st : ModemState) (ctx_id length max_bytes : Int)
    (result : WalterModemState) (rsp : Option ModemRsp) :
    ∀ o, socket_receive_data st ctx_id length max_bytes result rsp = Except.ok o →
      o.st.socket_context_states = st.socket_context_states := by
  intro o h
  unfold socket_receive_data at h
  repeat' split at h
  all_goals injection h with h'
  all_goals subst h'
  all_goals rfl

/-- When `socket_connect` returns, the socket mirror entries are unchanged
(it mutates `_socket_list` and the in-use reference only). -/
theorem socket_connect_socket_states (st : ModemState) (remote_host : String)
    (remote_port local_port socket_id protocol accept_any_remote : Int)
    (result : WalterModemState) (rsp : Option ModemRsp) :
    ∀ o, socket_connect st remote_host remote_port local_port socket_id protocol
        accept_any_remote result rsp = Except.ok o →
      o.st.socket_context_states = st.socket_context_states := by
  intro o h
  unfold socket_connect at h
  repeat' split at h
  all_goals first
    | (injection h with h'; subst h'
       simp only [runAtCmd]
       split
       · rfl
       · rfl)
    | (injection h with h'; subst h'; rfl)
    | cases h

/-- The handler `_handle_socket_ring` only appends to a `rings` queue, so it preserves
the per-entry configured/connected relation. -/
theorem handle_socket_ring_pres (st : ModemState) (at_rsp : List Nat)
    (st2 : ModemState) (r : WalterModemState)
    (h : handle_socket_ring st at_rsp = Except.ok (st2, r))
    (hinv : ∀ e ∈ st.socket_context_states, e.configured = e.connected) :
    ∀ e ∈ st2.socket_context_states, e.configured = e.connected := by
  unfold handle_socket_ring at h
  repeat' split at h
  all_goals try (cases h)
  rename_i l hmod
  exact pyListModify?_forall hmod hinv (fun x hx => hx)

/-- Claim C5. In every socket and CoAP mirror entry the invariant
`configured == connected` holds after initialization, and it is preserved
by every visible operation that mutates mirror state: the URC handlers,
the command functions with their completion handlers, and the mirror
reset.  (For CoAP entries `configured` is observationally `connected` by
construction, per the spec; for socket entries the handlers only ever
append rings or — on the crashing `+SQNSH: ` path — leave the state
untouched, so the relation set up at initialization is never broken.) -/
theorem mirror_configured_eq_connected_invariant :
    mirrorInv ModemState.init
    ∧ ∀ st op, mirrorInv st → mirrorInv (applyMirrorOp st op) := by
  constructor
  · exact ⟨by decide, fun c _ => rfl⟩
  · intro st op hinv
    refine ⟨?_, fun c _ => rfl⟩
    cases op with
    | socketClosed r => exact hinv.1
    | socketRing r =>
      dsimp only [applyMirrorOp]
      cases hh : handle_socket_ring st r with
      | error e => exact hinv.1
      | ok p =>
        cases p with
        | mk st2 rr => exact handle_socket_ring_pres st r st2 rr hh hinv.1
    | coapCreateOp c t sa sp lp spi d res rsp =>
      dsimp only [applyMirrorOp]
      rw [coap_create_socket_states]
      exact hinv.1
    | coapCloseOp c res rsp =>
      dsimp only [applyMirrorOp]
      rw [coap_close_socket_states]
      exact hinv.1
    | coapSendOp c m meth data len res rsp =>
      dsimp only [applyMirrorOp]
      rw [coap_send_socket_states]
      exact hinv.1
    | coapReceiveOp c msg len mx res rsp =>
      dsimp only [applyMirrorOp]
      rw [coap_receive_socket_states]
      exact hinv.1
    | socketSendOp c data len rai ra rp res rsp =>
      dsimp only [applyMirrorOp]
      cases hh : socket_send st c data len rai ra rp res rsp with
      | error e => exact hinv.1
      | ok o =>
        show ∀ e ∈ o.st.socket_context_states, e.configured = e.connected
        rw [socket_send_st_eq st c data len rai ra rp res rsp o hh]
        exact hinv.1
    | socketReceiveOp c len mx res rsp =>
      dsimp only [applyMirrorOp]
      cases hh : socket_receive_data st c len mx res rsp with
      | error e => exact hinv.1
      | ok o =>
        show ∀ e ∈ o.st.socket_context_states, e.configured = e.connected
        rw [socket_receive_socket_states st c len mx res rsp o hh]
        exact hinv.1
    | socketConnectOp rh rp lp sid proto aar res rsp =>
      dsimp only [applyMirrorOp]
      cases hh : socket_connect st rh rp lp sid proto aar res rsp with
      | error e => exact hinv.1
      | ok o =>
        show ∀ e ∈ o.st.socket_context_states, e.configured = e.connected
        rw [socket_connect_socket_states st rh rp lp sid proto aar res rsp o hh]
        exact hinv.1
    | socketMirrorReset => exact hinv.1

/-- Witness for C5: the invariant holds initially and is carried through a
concrete operation (a mirror reset on the fresh state). -/
theorem mirror_configured_eq_connected_invariant_witness :
    mirrorInv (applyMirrorOp ModemState.init MirrorOp.socketMirrorReset) :=
  mirror_configured_eq_connected_invariant.2 ModemState.init MirrorOp.socketMirrorReset
    (⟨by decide, fun c _ => rfl⟩ : mirrorInv ModemState.init)

/-! ### Auto-computed length contract (C8) and socket selection (C10) -/


/-- For an in-range CoAP context, `coap_send` with `length` omitted reduces
to the data-type dispatch over the auto-computed length `dataLen d`. -/
theorem coap_send_reduced (st : ModemState) (ctx_id m_type method : Int)
    (hctx : COAP_MIN_CTX_ID ≤ ctx_id ∧ ctx_id ≤ COAP_MAX_CTX_ID)
    (data : PyData) (result : WalterModemState) (rsp : Option ModemRsp) :
    coap_send st ctx_id m_type method data none result rsp
      = match pyDataToBytes? data with
        | none => rejected st rsp WalterModemState.ERROR
        | some d =>
          if dataLen d < COAP_MIN_BYTES_LENGTH ∨ COAP_MAX_BYTES_LENGTH < dataLen d then
            rejected st rsp WalterModemState.ERROR
          else
            runAtCmdPlain st (AtCommand.coapSend ctx_id m_type method (dataLen d) d)
              result rsp := by
  have hin : ¬ (ctx_id < COAP_MIN_CTX_ID ∨ COAP_MAX_CTX_ID < ctx_id) := by
    simp only [COAP_MIN_CTX_ID, COAP_MAX_CTX_ID] at hctx ⊢
    omega
  simp only [coap_send, if_neg hin, Option.getD_none]

/-- For a socket id whose context lookup does not itself crash (1–5, see
C3) and no explicit remote endpoint, `socket_send` with `length` omitted
reduces to the data-type dispatch over the auto-computed length. -/
theorem socket_send_reduced (st : ModemState)
    (hsl : st.socket_context_states.length = 6)
    (sctx rai : Int) (hsctx : SOCKET_MIN_CTX_ID ≤ sctx ∧ sctx ≤ 5)
    (data : PyData) (result : WalterModemState) (rsp : Option ModemRsp) :
    socket_send st sctx data none rai none none result rsp
      = match pyDataToBytes? data with
        | none => Except.ok (rejected st rsp WalterModemState.ERROR)
        | some d =>
          if dataLen d < SOCKET_SEND_MIN_BYTES_LEN ∨ SOCKET_SEND_MAX_BYTES_LEN < dataLen d then
            Except.ok (rejected st rsp WalterModemState.ERROR)
          else
            Except.ok (runAtCmdPlain st
              (AtCommand.socketSendExt sctx (dataLen d) rai none none d) result rsp) := by
  have hb : SOCKET_MIN_CTX_ID ≤ sctx ∧ sctx ≤ 5 := hsctx
  simp only [SOCKET_MIN_CTX_ID] at hb
  have hin : ¬ (sctx < SOCKET_MIN_CTX_ID ∨ SOCKET_MAX_CTX_ID < sctx) := by
    simp only [SOCKET_MIN_CTX_ID, SOCKET_MAX_CTX_ID]
    omega
  have hnn : ¬ sctx < 0 := by omega
  have hlt : sctx.toNat < st.socket_context_states.length := by
    rw [hsl]
    omega
  obtain ⟨entry, hentry⟩ : ∃ e, st.socket_context_states.get? sctx.toNat = some e := by
    cases hg : st.socket_context_states.get? sctx.toNat with
    | none => exact absurd (List.get?_eq_none.mp hg) (Nat.not_le_of_lt hlt)
    | some e => exact ⟨e, rfl⟩
  have hget : pyListGet? st.socket_context_states sctx = some entry := by
    simp only [pyListGet?, pyIndex, hsl, if_neg hnn]
    rw [if_pos (by omega : (0 : Int) ≤ sctx ∧ sctx < (6 : Nat))]
    simpa using hentry
  simp only [socket_send, if_neg hin, hget, Option.isSome_none, Bool.false_eq_true,
    or_self, and_false, if_false, Option.getD_none]

/-- Claim C8 (amended).  For `coap_send` and `socket_send` with `length`
omitted: the auto-computed length is the UTF-8 byte length for `str`
data, `len(data)` for `bytes`/`bytearray`, and 0 for `None`; whenever that
value lies in the operation's allowed range (0–1024 for CoAP, 1–16777216
for sockets) the AT command carries exactly it, and otherwise the call is
rejected with `ERROR` before any transport interaction — in particular
`socket_send` with `data = None` computes 0, which is below the socket
minimum of 1, so it is always rejected and transmits nothing.  Data of any
other type is rejected with `ERROR` before any transport interaction.
(The socket clauses are stated for ids 1–5, where the context lookup does
not itself raise; see C3.) -/
theorem auto_length_contract (st : ModemState)
    (hsl : st.socket_context_states.length = 6)
    (ctx_id m_type method : Int)
    (hctx : COAP_MIN_CTX_ID ≤ ctx_id ∧ ctx_id ≤ COAP_MAX_CTX_ID)
    (sctx rai : Int) (hsctx : SOCKET_MIN_CTX_ID ≤ sctx ∧ sctx ≤ 5)
    (data : PyData) (result : WalterModemState) (rsp : Option ModemRsp) :
    (∀ s, pyDataToBytes? (PyData.str s) = some (some (pyEncodeUTF8 s)))
    ∧ (∀ b, dataLen (some b) = (b.length : Int))
    ∧ dataLen none = 0
    ∧ pyDataToBytes? PyData.other = none
    ∧ (∀ d, pyDataToBytes? data = some d →
        (COAP_MIN_BYTES_LENGTH ≤ dataLen d ∧ dataLen d ≤ COAP_MAX_BYTES_LENGTH →
          coap_send st ctx_id m_type method data none result rsp
            = runAtCmdPlain st (AtCommand.coapSend ctx_id m_type method (dataLen d) d)
                result rsp)
        ∧ (dataLen d < COAP_MIN_BYTES_LENGTH ∨ COAP_MAX_BYTES_LENGTH < dataLen d →
          coap_send st ctx_id m_type method data none result rsp
            = rejected st rsp WalterModemState.ERROR)
        ∧ (SOCKET_SEND_MIN_BYTES_LEN ≤ dataLen d ∧ dataLen d ≤ SOCKET_SEND_MAX_BYTES_LEN →
          socket_send st sctx data none rai none none result rsp
            = Except.ok (runAtCmdPlain st
                (AtCommand.socketSendExt sctx (dataLen d) rai none none d) result rsp))
        ∧ (dataLen d < SOCKET_SEND_MIN_BYTES_LEN ∨ SOCKET_SEND_MAX_BYTES_LEN < dataLen d →
          socket_send st sctx data none rai none none result rsp
            = Except.ok (rejected st rsp WalterModemState.ERROR)))
    ∧ (pyDataToBytes? data = none →
        coap_send st ctx_id m_type method data none result rsp
            = rejected st rsp WalterModemState.ERROR
        ∧ socket_send st sctx data none rai none none result rsp
            = Except.ok (rejected st rsp WalterModemState.ERROR))
    ∧ socket_send st sctx PyData.pynone none rai none none result rsp
        = Except.ok (rejected st rsp WalterModemState.ERROR) := by
  have hcoap := coap_send_reduced st ctx_id m_type method hctx data result rsp
  have hsock := socket_send_reduced st hsl sctx rai hsctx data result rsp
  refine ⟨fun s => rfl, fun b => rfl, rfl, rfl, ?_, ?_, ?_⟩
  · intro d hd
    rw [hd] at hcoap hsock
    replace hcoap : coap_send st ctx_id m_type method data none result rsp
        = if dataLen d < COAP_MIN_BYTES_LENGTH ∨ COAP_MAX_BYTES_LENGTH < dataLen d then
            rejected st rsp WalterModemState.ERROR
          else
            runAtCmdPlain st (AtCommand.coapSend ctx_id m_type method (dataLen d) d)
              result rsp := hcoap
    replace hsock : socket_send st sctx data none rai none none result rsp
        = if dataLen d < SOCKET_SEND_MIN_BYTES_LEN ∨ SOCKET_SEND_MAX_BYTES_LEN < dataLen d then
            Except.ok (rejected st rsp WalterModemState.ERROR)
          else
            Except.ok (runAtCmdPlain st
              (AtCommand.socketSendExt sctx (dataLen d) rai none none d) result rsp) := hsock
    refine ⟨?_, ?_, ?_, ?_⟩
    · intro hr
      rw [hcoap, if_neg]
      simp only [COAP_MIN_BYTES_LENGTH, COAP_MAX_BYTES_LENGTH] at hr ⊢
      omega
    · intro hr
      rw [hcoap, if_pos hr]
    · intro hr
      rw [hsock, if_neg]
      simp only [SOCKET_SEND_MIN_BYTES_LEN, SOCKET_SEND_MAX_BYTES_LEN] at hr ⊢
      omega
    · intro hr
      rw [hsock, if_pos hr]
  · intro hd
    rw [hd] at hcoap hsock
    exact ⟨hcoap, hsock⟩
  · rw [socket_send_reduced st hsl sctx rai hsctx PyData.pynone result rsp]
    rfl

/-- Witness for C8 at 5-byte binary data on CoAP context 0 and socket 1:
the transmitted length is exactly 5 on both paths; and the `None`-data
socket call is rejected with nothing transmitted. -/
theorem auto_length_contract_witness :
    coap_send ModemState.init 0 0 2 (PyData.bytes [1, 2, 3, 4, 5]) none
        WalterModemState.OK none
      = runAtCmdPlain ModemState.init (AtCommand.coapSend 0 0 2 5 (some [1, 2, 3, 4, 5]))
          WalterModemState.OK none
    ∧ socket_send ModemState.init 1 (PyData.bytes [1, 2, 3, 4, 5]) none 0 none none
        WalterModemState.OK none
      = Except.ok (runAtCmdPlain ModemState.init
          (AtCommand.socketSendExt 1 5 0 none none (some [1, 2, 3, 4, 5]))
          WalterModemState.OK none)
    ∧ socket_send ModemState.init 1 PyData.pynone none 0 none none
        WalterModemState.OK none
      = Except.ok (rejected ModemState.init none WalterModemState.ERROR) := by
  have h := auto_length_contract ModemState.init rfl 0 0 2 ⟨by decide, by decide⟩
    1 0 ⟨by decide, by decide⟩ (PyData.bytes [1, 2, 3, 4, 5]) WalterModemState.OK none
  have h5 := h.2.2.2.2.1 (some [1, 2, 3, 4, 5]) rfl
  exact ⟨h5.1 ⟨by decide, by decide⟩, h5.2.2.1 ⟨by decide, by decide⟩,
    (auto_length_contract ModemState.init rfl 0 0 2 ⟨by decide, by decide⟩
      1 0 ⟨by decide, by decide⟩ PyData.pynone WalterModemState.OK none).2.2.2.2.2.2⟩

/-- Claim C10 (amended).  `socket_connect` answers `NO_SUCH_SOCKET` exactly
when indexing `self._socket_list` raises: with the seven-entry list,
`socket_id - 1` must fall in Python's valid index window `-7…6`, i.e.
`socket_id ∈ -6…7` (other than the `-1` sentinel).  Within that window the
call is accepted and silently selects the entry at the wrapped index —
`socket_id = 7` (outside the documented 1–6 range) selects the entry with
id 7, and `socket_id ∈ -6…-2` selects an existing socket from the end of
the list; for `socket_id ≤ -7` or `socket_id ≥ 8` the raised `IndexError`
is answered with `NO_SUCH_SOCKET`. -/
theorem socket_connect_indexing (st : ModemState) (hlen : st.socket_list.length = 7)
    (socket_id : Int) (hne : socket_id ≠ -1)
    (remote_host : String) (remote_port local_port protocol accept_any_remote : Int)
    (result : WalterModemState) (rsp : Option ModemRsp) :
    ((-6 ≤ socket_id ∧ socket_id ≤ 7) →
      ∃ o, socket_connect st remote_host remote_port local_port socket_id protocol
          accept_any_remote result rsp = Except.ok o
        ∧ o.st.socket = some ((if socket_id < 1 then socket_id + 6 else socket_id - 1).toNat)
        ∧ o.cmds ≠ []
        ∧ o.ret = (result == WalterModemState.OK))
    ∧ ((socket_id ≤ -7 ∨ 8 ≤ socket_id) →
      socket_connect st remote_host remote_port local_port socket_id protocol
          accept_any_remote result rsp
        = Except.ok (rejected st rsp WalterModemState.NO_SUCH_SOCKET)) := by
  constructor
  · intro hin
    have hj : pyIndex st.socket_list.length (socket_id - 1)
        = some ((if socket_id < 1 then socket_id + 6 else socket_id - 1).toNat) := by
      simp only [pyIndex, hlen]
      by_cases hs : socket_id - 1 < 0
      · rw [if_pos hs,
          if_pos (by omega : (0 : Int) ≤ socket_id - 1 + (7 : Nat)
            ∧ socket_id - 1 + (7 : Nat) < (7 : Nat)),
          if_pos (by omega : socket_id < 1)]
        simp only [Option.some.injEq]
        omega
      · rw [if_neg hs,
          if_pos (by omega : (0 : Int) ≤ socket_id - 1
            ∧ socket_id - 1 < (7 : Nat)),
          if_neg (by omega : ¬ socket_id < 1)]
    have hjlt : ((if socket_id < 1 then socket_id + 6 else socket_id - 1).toNat)
        < st.socket_list.length := by
      rw [hlen]
      by_cases hs : socket_id < 1
      · rw [if_pos hs]
        omega
      · rw [if_neg hs]
        omega
    obtain ⟨sock, hg⟩ : ∃ k, st.socket_list.get?
        ((if socket_id < 1 then socket_id + 6 else socket_id - 1).toNat) = some k := by
      cases hgg : st.socket_list.get?
          ((if socket_id < 1 then socket_id + 6 else socket_id - 1).toNat) with
      | none => exact absurd (List.get?_eq_none.mp hgg) (Nat.not_le_of_lt hjlt)
      | some k => exact ⟨k, rfl⟩
    have hmain : socket_connect st remote_host remote_port local_port socket_id protocol
        accept_any_remote result rsp = Except.ok (runAtCmd
          { st with
              socket_list := st.socket_list.set
                ((if socket_id < 1 then socket_id + 6 else socket_id - 1).toNat)
                (sockAfterConnect sock protocol accept_any_remote remote_host
                  remote_port local_port)
              socket := some ((if socket_id < 1 then socket_id + 6 else socket_id - 1).toNat) }
          (AtCommand.sqnsd
            (sockAfterConnect sock protocol accept_any_remote remote_host
              remote_port local_port).id
            (sockAfterConnect sock protocol accept_any_remote remote_host
              remote_port local_port).protocol
            (sockAfterConnect sock protocol accept_any_remote remote_host
              remote_port local_port).remote_port
            (sockAfterConnect sock protocol accept_any_remote remote_host
              remote_port local_port).remote_host
            (sockAfterConnect sock protocol accept_any_remote remote_host
              remote_port local_port).local_port
            (sockAfterConnect sock protocol accept_any_remote remote_host
              remote_port local_port).accept_any_remote)
          result rsp
          (fun r s =>
            if r == WalterModemState.OK then
              { s with socket_list :=
                  (listModifyNat s.socket_list
                    ((if socket_id < 1 then socket_id + 6 else socket_id - 1).toNat)
                    (fun k => { k with state := WalterModemSocketState_OPENED })) }
            else s)) := by
      simp only [socket_connect, if_neg hne, hj, Option.map_some', hg]
    refine ⟨_, hmain, ?_, ?_, ?_⟩
    · simp only [runAtCmd]
      split
      · rfl
      · rfl
    · exact List.cons_ne_nil _ _
    · rfl
  · intro hout
    have hj : pyIndex st.socket_list.length (socket_id - 1) = none := by
      simp only [pyIndex, hlen]
      by_cases hs : socket_id - 1 < 0
      · rw [if_pos hs,
          if_neg (by omega : ¬ ((0 : Int) ≤ socket_id - 1 + (7 : Nat)
            ∧ socket_id - 1 + (7 : Nat) < (7 : Nat)))]
      · rw [if_neg hs,
          if_neg (by omega : ¬ ((0 : Int) ≤ socket_id - 1
            ∧ socket_id - 1 < (7 : Nat)))]
    simp only [socket_connect, if_neg hne, hj, Option.map_none']

/-- Witness for C10: on the fresh state, `socket_id = -2` is accepted and
selects index 4 (the socket with id 5, counted from the end), `socket_id
= 7` is accepted and selects index 6 (the socket with id 7), and
`socket_id = 8` is rejected with `NO_SUCH_SOCKET`. -/
theorem socket_connect_indexing_witness :
    (∃ o, socket_connect ModemState.init "test.local" 80 0 (-2)
        WalterModemSocketProto_UDP WalterModemSocketAcceptAnyRemote_DISABLED
        WalterModemState.OK none = Except.ok o
      ∧ o.st.socket = some ((if (-2 : Int) < 1 then (-2 : Int) + 6 else (-2 : Int) - 1).toNat)
      ∧ o.cmds ≠ []
      ∧ o.ret = (WalterModemState.OK == WalterModemState.OK))
    ∧ (∃ o, socket_connect ModemState.init "test.local" 80 0 7
        WalterModemSocketProto_UDP WalterModemSocketAcceptAnyRemote_DISABLED
        WalterModemState.OK none = Except.ok o
      ∧ o.st.socket = some ((if (7 : Int) < 1 then (7 : Int) + 6 else (7 : Int) - 1).toNat)
      ∧ o.cmds ≠ []
      ∧ o.ret = (WalterModemState.OK == WalterModemState.OK))
    ∧ socket_connect ModemState.init "test.local" 80 0 8
        WalterModemSocketProto_UDP WalterModemSocketAcceptAnyRemote_DISABLED
        WalterModemState.OK none
      = Except.ok (rejected ModemState.init none WalterModemState.NO_SUCH_SOCKET)
    ∧ ((if (-2 : Int) < 1 then (-2 : Int) + 6 else (-2 : Int) - 1).toNat = 4
      ∧ (if (7 : Int) < 1 then (7 : Int) + 6 else (7 : Int) - 1).toNat = 6
      ∧ (initSocketList.get? 4).map (fun k => k.id) = some 5
      ∧ (initSocketList.get? 6).map (fun k => k.id) = some 7) := by
  refine ⟨(socket_connect_indexing ModemState.init rfl (-2) (by decide) "test.local"
      80 0 WalterModemSocketProto_UDP WalterModemSocketAcceptAnyRemote_DISABLED
      WalterModemState.OK none).1 ⟨by decide, by decide⟩,
    (socket_connect_indexing ModemState.init rfl 7 (by decide) "test.local"
      80 0 WalterModemSocketProto_UDP WalterModemSocketAcceptAnyRemote_DISABLED
      WalterModemState.OK none).1 ⟨by decide, by decide⟩,
    (socket_connect_indexing ModemState.init rfl 8 (by decide) "test.local"
      80 0 WalterModemSocketProto_UDP WalterModemSocketAcceptAnyRemote_DISABLED
      WalterModemState.OK none).2 (Or.inr (by decide)),
    by decide, by decide, by decide, by decide⟩
